import Mathlib

/- Shallow embedding of the UrbanWell NASA backend (urbanwell_nasa_backend.py).

   Conventions used throughout:
   - Python floats are modelled as exact rationals (ℚ); `random.randint` values
     as integers (ℤ).
   - Python's `random` module is modelled by an oracle record `RandOracle`; the
     predicate `RandOracle.Valid` captures the documented guarantees of
     `random.uniform a b` (result in [a, b]) and `random.randint a b`
     (result in [a, b]).
   - ISO-8601 timestamp strings compare lexicographically exactly as they
     compare chronologically, so timestamps are modelled by a totally ordered
     key of type ℕ.
   - Exceptions are modelled with `Except PyErr`; a Python `try/except` block
     becomes a `match` on the embedded block's result.
   - Network and library effects (HTTP status codes, `earthaccess`
     availability, raised exceptions) are modelled by explicit environment
     records (`AirEnv`, `WaterEnv`, `VegEnv`, `AuthEnv`) enumerating each
     vendor path's outcome. -/

namespace UrbanWell

/-- The `flood_risk` field: `random.choice(['Low', 'Medium', 'High'])`. -/
inductive FloodRisk
| Low
| Medium
| High
deriving DecidableEq

/-- Oracle standing for Python's `random` module (and the wall clock is passed
separately as `now`). -/
structure RandOracle where
  uniform : ℚ → ℚ → ℚ
  randint : ℤ → ℤ → ℤ
  choice : FloodRisk

/-- The documented contracts of `random.uniform` and `random.randint`:
both return a value inside the closed interval given by their arguments. -/
def RandOracle.Valid (o : RandOracle) : Prop :=
  (∀ a b : ℚ, a ≤ b → a ≤ o.uniform a b ∧ o.uniform a b ≤ b) ∧
  (∀ a b : ℤ, a ≤ b → a ≤ o.randint a b ∧ o.randint a b ≤ b)

/-- One air-quality observation dict as produced by the fetch paths
(`timestamp`, `no2`, `o3`, `pm25`, `so2`, `aqi`, `source`). -/
structure AirObs where
  timestamp : ℕ
  no2 : ℚ
  o3 : ℚ
  pm25 : ℚ
  so2 : ℚ
  aqi : ℤ
  source : String
deriving DecidableEq

/-- One water-security observation dict. -/
structure WaterObs where
  timestamp : ℕ
  groundwater_level : ℚ
  precipitation : ℚ
  flood_risk : FloodRisk
  source : String
deriving DecidableEq

/-- One vegetation observation dict. -/
structure VegObs where
  timestamp : ℕ
  ndvi : ℚ
  evi : ℚ
  green_coverage : ℚ
  temperature : ℚ
  source : String
deriving DecidableEq

/-- `NASAAPIClient._simulate_air_quality_data` (lines 335-345). -/
def simulate_air_quality_data (o : RandOracle) (now : ℕ) : AirObs :=
  { timestamp := now
    no2 := o.uniform 10 50
    o3 := o.uniform 20 80
    pm25 := o.uniform 5 35
    so2 := o.uniform 1 15
    aqi := o.randint 50 150
    source := "SIMULATION" }

/-- `NASAAPIClient._simulate_water_data` (lines 347-355). -/
def simulate_water_data (o : RandOracle) (now : ℕ) : WaterObs :=
  { timestamp := now
    groundwater_level := o.uniform (-20) 20
    precipitation := o.uniform 0 15
    flood_risk := o.choice
    source := "SIMULATION" }

/-- `NASAAPIClient._simulate_vegetation_data` (lines 357-366). -/
def simulate_vegetation_data (o : RandOracle) (now : ℕ) : VegObs :=
  { timestamp := now
    ndvi := o.uniform 0.2 0.8
    evi := o.uniform 0.1 0.6
    green_coverage := o.uniform 15 65
    temperature := o.uniform 20 35
    source := "SIMULATION" }

/-- `NASAAPIClient._process_nasa_air_data` (lines 258-274): the vendor payload
is ignored and the metrics are drawn from the same bounded-random generators
as simulation, tagged with the vendor source label. Its internal
`try/except` cannot fail here because the dict construction is total. -/
def process_nasa_air_data (o : RandOracle) (now : ℕ) : AirObs :=
  { timestamp := now
    no2 := o.uniform 10 50
    o3 := o.uniform 20 80
    pm25 := o.uniform 5 35
    so2 := o.uniform 1 15
    aqi := o.randint 50 150
    source := "NASA_TEMPO_OMI" }

/-- `NASAAPIClient._process_nasa_water_data` (lines 276-288). -/
def process_nasa_water_data (o : RandOracle) (now : ℕ) : WaterObs :=
  { timestamp := now
    groundwater_level := o.uniform (-20) 20
    precipitation := o.uniform 0 15
    flood_risk := o.choice
    source := "NASA_GRACE_GPM" }

/-- `NASAAPIClient._process_nasa_vegetation_data` (lines 290-303). -/
def process_nasa_vegetation_data (o : RandOracle) (now : ℕ) : VegObs :=
  { timestamp := now
    ndvi := o.uniform 0.2 0.8
    evi := o.uniform 0.1 0.6
    green_coverage := o.uniform 15 65
    temperature := o.uniform 20 35
    source := "NASA_MODIS_LANDSAT" }

/-- Outcome of one `requests` HTTP call in the environment. -/
inductive HttpOutcome
| ok200
| okOther
| raises
deriving DecidableEq

/-- Embedded Python exception kinds. -/
inductive PyErr
| netError
| attrError
deriving DecidableEq

/-- Environment of `NASAAPIClient.get_air_quality_data`: which vendor paths
are available and how each behaves on this call. -/
structure AirEnv where
  authenticated : Bool
  hasApiKey : Bool
  pathA : HttpOutcome
  earthaccessAvailable : Bool
  searchRaises : Bool
  searchNonempty : Bool
  downloadRaises : Bool
  pathC : HttpOutcome
deriving DecidableEq

/-- Environment of `NASAAPIClient.get_water_security_data` (its Method 2 has
no download step). -/
structure WaterEnv where
  authenticated : Bool
  hasApiKey : Bool
  pathA : HttpOutcome
  earthaccessAvailable : Bool
  searchRaises : Bool
  searchNonempty : Bool
deriving DecidableEq

/-- Environment of `NASAAPIClient.get_vegetation_data`. -/
structure VegEnv where
  authenticated : Bool
  hasApiKey : Bool
  pathA : HttpOutcome
  earthaccessAvailable : Bool
  searchRaises : Bool
  searchNonempty : Bool
deriving DecidableEq

/-- `NASAAPIClient._fetch_nasa_opendata_air_quality` (lines 306-316): a bare
`except: pass` absorbs any request failure, a 200 response is processed as
vendor data, anything else falls to simulation. Never raises. -/
def fetch_nasa_opendata_air_quality (env : AirEnv) (o : RandOracle) (now : ℕ) : AirObs :=
  match env.pathC with
  | .ok200 => process_nasa_air_data o now
  | .okOther => simulate_air_quality_data o now
  | .raises => simulate_air_quality_data o now

/-- `NASAAPIClient._fetch_nasa_precipitation_data` (lines 318-324): both the
`try` body and the handler return simulation. -/
def fetch_nasa_precipitation_data (o : RandOracle) (now : ℕ) : WaterObs :=
  simulate_water_data o now

/-- `NASAAPIClient._fetch_nasa_landsat_data` (lines 326-332). -/
def fetch_nasa_landsat_data (o : RandOracle) (now : ℕ) : VegObs :=
  simulate_vegetation_data o now

/-- The `try` body of `get_air_quality_data` (lines 95-135). Method 1 runs
when an API key is configured: a raised request propagates, a 200 returns
processed vendor data, any other status falls through. Method 2 runs when
`earthaccess` imports: a raised search propagates; a non-empty result leads to
`self._process_omi_data`, a method that does not exist on the class, so an
`AttributeError` propagates (after a possible download failure); an
`ImportError` or empty result falls through. Method 3 delegates to the
open-data helper, which never raises. -/
def air_try_block (env : AirEnv) (o : RandOracle) (now : ℕ) : Except PyErr AirObs :=
  let step2 : Except PyErr AirObs :=
    if env.earthaccessAvailable then
      if env.searchRaises then .error .netError
      else if env.searchNonempty then
        if env.downloadRaises then .error .netError
        else .error .attrError
      else .ok (fetch_nasa_opendata_air_quality env o now)
    else .ok (fetch_nasa_opendata_air_quality env o now)
  if env.hasApiKey then
    match env.pathA with
    | .raises => .error .netError
    | .ok200 => .ok (process_nasa_air_data o now)
    | .okOther => step2
  else step2

/-- `NASAAPIClient.get_air_quality_data` (lines 80-139): unauthenticated mode
returns simulation immediately; otherwise the `try` body runs and the
`except Exception` handler resolves any propagated error to simulation. -/
def get_air_quality_data (env : AirEnv) (o : RandOracle) (now : ℕ) : AirObs :=
  if env.authenticated then
    match air_try_block env o now with
    | .ok v => v
    | .error _ => simulate_air_quality_data o now
  else simulate_air_quality_data o now

/-- The `try` body of `get_water_security_data` (lines 156-193).
`self._process_grace_data` does not exist on the class, so a non-empty GRACE
search result raises `AttributeError`. -/
def water_try_block (env : WaterEnv) (o : RandOracle) (now : ℕ) : Except PyErr WaterObs :=
  let step2 : Except PyErr WaterObs :=
    if env.earthaccessAvailable then
      if env.searchRaises then .error .netError
      else if env.searchNonempty then .error .attrError
      else .ok (fetch_nasa_precipitation_data o now)
    else .ok (fetch_nasa_precipitation_data o now)
  if env.hasApiKey then
    match env.pathA with
    | .raises => .error .netError
    | .ok200 => .ok (process_nasa_water_data o now)
    | .okOther => step2
  else step2

/-- `NASAAPIClient.get_water_security_data` (lines 141-197). -/
def get_water_security_data (env : WaterEnv) (o : RandOracle) (now : ℕ) : WaterObs :=
  if env.authenticated then
    match water_try_block env o now with
    | .ok v => v
    | .error _ => simulate_water_data o now
  else simulate_water_data o now

/-- The `try` body of `get_vegetation_data` (lines 214-251).
`self._process_modis_data` does not exist on the class, so a non-empty MODIS
search result raises `AttributeError`. -/
def veg_try_block (env : VegEnv) (o : RandOracle) (now : ℕ) : Except PyErr VegObs :=
  let step2 : Except PyErr VegObs :=
    if env.earthaccessAvailable then
      if env.searchRaises then .error .netError
      else if env.searchNonempty then .error .attrError
      else .ok (fetch_nasa_landsat_data o now)
    else .ok (fetch_nasa_landsat_data o now)
  if env.hasApiKey then
    match env.pathA with
    | .raises => .error .netError
    | .ok200 => .ok (process_nasa_vegetation_data o now)
    | .okOther => step2
  else step2

/-- `NASAAPIClient.get_vegetation_data` (lines 199-255). -/
def get_vegetation_data (env : VegEnv) (o : RandOracle) (now : ℕ) : VegObs :=
  if env.authenticated then
    match veg_try_block env o now with
    | .ok v => v
    | .error _ => simulate_vegetation_data o now
  else simulate_vegetation_data o now

/-- The exact condition under which the air fetch returns vendor-tagged data:
authenticated and either Method 1 got a 200, or Methods 1 and 2 fell through
without raising and the open-data helper got a 200. -/
def AirEnv.vendorSuccess (e : AirEnv) : Bool :=
  e.authenticated &&
    ((e.hasApiKey && e.pathA == .ok200) ||
     ((!e.hasApiKey || e.pathA == .okOther) &&
      (!e.earthaccessAvailable || (!e.searchRaises && !e.searchNonempty)) &&
      e.pathC == .ok200))

/-- The exact condition under which the water fetch returns vendor-tagged
data: only Method 1 can produce it (Method 3 always simulates). -/
def WaterEnv.vendorSuccess (e : WaterEnv) : Bool :=
  e.authenticated && e.hasApiKey && e.pathA == .ok200

/-- The exact condition under which the vegetation fetch returns vendor-tagged
data: only Method 1 can produce it (Method 3 always simulates). -/
def VegEnv.vendorSuccess (e : VegEnv) : Bool :=
  e.authenticated && e.hasApiKey && e.pathA == .ok200

/-- Environment of `NASAAPIClient.setup_authentication` (lines 56-78):
either `earthaccess` imports and its `login` succeeds, or it imports and
`login` raises, or the import fails and the `requests` session fallback is
used (which performs no network call). -/
inductive AuthEnv
| loginOk
| loginRaises
| notInstalled
deriving DecidableEq

/-- Whether `setup_authentication` completes without raising. -/
def AuthEnv.setupSucceeds : AuthEnv → Bool
| .loginRaises => false
| _ => true

/-- `NASAAPIClient.setup_authentication` (lines 56-78), returning the value of
`self.authenticated` it leaves behind: `True` on the `earthaccess` path and on
the `ImportError` fallback path, `False` when the login attempt raises. -/
def setup_authentication (env : AuthEnv) : Bool :=
  match env with
  | .loginOk => true
  | .loginRaises => false
  | .notInstalled => true

/-- `NASAAPIClient.__init__` (lines 43-54), returning the resolved
`self.authenticated` flag: `setup_authentication` runs only when both
credential strings are truthy (non-empty); otherwise the flag stays `False`.
No placeholder-value check appears anywhere on this path. -/
def resolve_authenticated (username password : String) (env : AuthEnv) : Bool :=
  if username != "" && password != "" then setup_authentication env
  else false

/-- The placeholder credential value known to the repository
(`check-nasa-installation.py`, line 32). -/
def placeholder_username : String := "your_earthdata_username_here"

/-- Modelled from the spec: the claimed mode-resolution rule, "Live only when
both are non-empty non-placeholder strings; Simulated whenever either
credential string is empty or equals the known placeholder value". Stated
from the spec's words for comparison against `resolve_authenticated`. -/
def claimed_live_mode (username password : String) : Bool :=
  username != "" && password != "" &&
    username != placeholder_username && password != placeholder_username

/-! ### Database model (schema from `init_db`, lines 371-451) -/

/-- A `locations` row. -/
structure LocationRow where
  id : ℕ
  name : String
  latitude : ℚ
  longitude : ℚ
  population : Option ℤ
  area : Option ℚ
deriving DecidableEq

/-- An `air_quality` row. -/
structure AirRow where
  location_id : ℕ
  timestamp : ℕ
  no2 : ℚ
  o3 : ℚ
  pm25 : ℚ
  so2 : ℚ
  aqi : ℤ
  data_source : String
deriving DecidableEq

/-- A `water_data` row. -/
structure WaterRow where
  location_id : ℕ
  timestamp : ℕ
  groundwater_level : ℚ
  precipitation : ℚ
  flood_risk : FloodRisk
  data_source : String
deriving DecidableEq

/-- A `vegetation` row. -/
structure VegRow where
  location_id : ℕ
  timestamp : ℕ
  ndvi : ℚ
  evi : ℚ
  green_coverage : ℚ
  temperature : ℚ
  data_source : String
deriving DecidableEq

/-- An `api_logs` row. -/
structure LogRow where
  endpoint : String
  latitude : ℚ
  longitude : ℚ
  response_status : String
deriving DecidableEq

/-- The committed database state: the five tables, each a list of rows in
insertion order. -/
structure DB where
  locations : List LocationRow
  air_quality : List AirRow
  water_data : List WaterRow
  vegetation : List VegRow
  api_logs : List LogRow
deriving DecidableEq

/-- The row the dashboard query inserts into `air_quality` (lines 569-574). -/
def AirRow.ofObs (lid : ℕ) (a : AirObs) : AirRow :=
  { location_id := lid, timestamp := a.timestamp, no2 := a.no2, o3 := a.o3
    pm25 := a.pm25, so2 := a.so2, aqi := a.aqi, data_source := a.source }

/-- The row the dashboard query inserts into `water_data` (lines 576-581). -/
def WaterRow.ofObs (lid : ℕ) (w : WaterObs) : WaterRow :=
  { location_id := lid, timestamp := w.timestamp
    groundwater_level := w.groundwater_level, precipitation := w.precipitation
    flood_risk := w.flood_risk, data_source := w.source }

/-- The row the dashboard query inserts into `vegetation` (lines 583-589). -/
def VegRow.ofObs (lid : ℕ) (v : VegObs) : VegRow :=
  { location_id := lid, timestamp := v.timestamp, ndvi := v.ndvi, evi := v.evi
    green_coverage := v.green_coverage, temperature := v.temperature
    data_source := v.source }

/-- `SELECT * FROM locations WHERE id = ?` (lines 551-553). -/
def DB.findLocation (db : DB) (lid : ℕ) : Option LocationRow :=
  db.locations.find? (fun l => l.id == lid)

/-- `cursor.lastrowid` for the `locations` table: with an autoincrementing
integer primary key and no deletions, the fresh id is one more than the
largest existing id. -/
def DB.nextLocationId (db : DB) : ℕ :=
  db.locations.foldr (fun l acc => max l.id acc) 0 + 1

/-! ### Wellbeing reducer (`get_dashboard_data`, lines 594-597 and 613) -/

/-- The three per-domain scores and their weighted sum (lines 594-597). The
`if ... else 50` defaults mirror the source's conditional expressions for an
absent observation. -/
def wellbeing_index (air : Option AirObs) (water : Option WaterObs)
    (veg : Option VegObs) : ℚ :=
  let air_score : ℚ :=
    match air with
    | some a => max 0 (100 - (a.aqi : ℚ))
    | none => 50
  let water_score : ℚ :=
    match water with
    | some w => 50 + w.groundwater_level * 2
    | none => 50
  let green_score : ℚ :=
    match veg with
    | some v => v.green_coverage
    | none => 50
  air_score * 0.4 + water_score * 0.3 + green_score * 0.3

/-- The value placed in the response: `min(100, max(0, wellbeing_index))`
(line 613). -/
def dashboard_wellbeing (air : Option AirObs) (water : Option WaterObs)
    (veg : Option VegObs) : ℚ :=
  min 100 (max 0 (wellbeing_index air water veg))

/-- Modelled from the spec: `clamp(x, lo, hi)` as used by the spec's formula
`index = clamp(air_score*0.4 + water_score*0.3 + green_score*0.3, 0, 100)`. -/
def clamp (x lo hi : ℚ) : ℚ := min hi (max lo x)

/-! ### Dashboard query (`get_dashboard_data`, lines 545-624) -/

/-- Outcome of one dashboard query: HTTP 404, HTTP 500, or HTTP 200 carrying
the clamped wellbeing index. -/
inductive DashResult
| notFound
| failure
| success (wellbeing : ℚ)
deriving DecidableEq

/-- `get_dashboard_data` (lines 545-624) as a transition on the committed
database state. The three fetched observations are passed in explicitly (the
fetchers are pure in this embedding and never raise, see
`get_air_quality_data` and friends). `failAt` injects a store fault at one of
the four planned inserts: step 0/1/2 are the air/water/vegetation inserts,
step 3 is the `api_logs` insert. A fault in steps 0-2 is caught by the
`except` handler before the first `conn.commit()` (line 591), so the
connection closes with the whole staged batch rolled back. The first commit
makes the three domain rows durable; the `api_logs` insert and the second
`conn.commit()` (line 605) form a separate transaction, so a fault at step 3
leaves the three domain rows committed. The body of the found-location
branch is split out so that the two transactions' conditionals sit at the
top level. -/
def dashboard_found_body (db : DB) (lid : ℕ) (loc : LocationRow)
    (air : AirObs) (water : WaterObs) (veg : VegObs) (failAt : Option ℕ) :
    DB × DashResult :=
  if failAt = some 0 ∨ failAt = some 1 ∨ failAt = some 2 then
    (db, .failure)
  else
    let db1 : DB :=
      { db with
        air_quality := db.air_quality ++ [AirRow.ofObs lid air]
        water_data := db.water_data ++ [WaterRow.ofObs lid water]
        vegetation := db.vegetation ++ [VegRow.ofObs lid veg] }
    if failAt = some 3 then (db1, .failure)
    else
      let db2 : DB :=
        { db1 with
          api_logs := db1.api_logs ++
            [{ endpoint := "dashboard", latitude := loc.latitude
               longitude := loc.longitude, response_status := "success" }] }
      (db2, .success (dashboard_wellbeing (some air) (some water) (some veg)))

/-- `get_dashboard_data` (lines 545-624): location lookup (404 on a miss),
then the fetch-store-reduce-log pipeline of `dashboard_found_body`. -/
def get_dashboard_data (db : DB) (lid : ℕ) (air : AirObs) (water : WaterObs)
    (veg : VegObs) (failAt : Option ℕ) : DB × DashResult :=
  match db.findLocation lid with
  | none => (db, .notFound)
  | some loc => dashboard_found_body db lid loc air water veg failAt

/-! ### Location registration (`add_location`, lines 516-543) -/

/-- The parsed JSON body of a `POST /api/locations` request; `none` fields
model absent keys, and an absent/empty body is modelled by passing `none` for
the whole request. -/
structure LocationReq where
  name : Option String
  latitude : Option ℚ
  longitude : Option ℚ
  population : Option ℤ
  area : Option ℚ
deriving DecidableEq

/-- Outcome of `add_location`: the two HTTP 400 rejections or success with
the new row id. -/
inductive AddLocationResult
| missingFields
| invalidCoordinates
| added (id : ℕ)
deriving DecidableEq

/-- The coordinate check and insert of `add_location` (lines 524-543), split
out so the validation conditional sits at the top level. -/
def add_location_insert (db : DB) (nm : String) (lat lon : ℚ)
    (pop : Option ℤ) (ar : Option ℚ) : DB × AddLocationResult :=
  if (-90 ≤ lat ∧ lat ≤ 90) ∧ (-180 ≤ lon ∧ lon ≤ 180) then
    let newId := db.nextLocationId
    ({ db with
       locations := db.locations ++
         [{ id := newId, name := nm, latitude := lat, longitude := lon
            population := pop, area := ar }] },
     .added newId)
  else (db, .invalidCoordinates)

/-- `add_location` (lines 516-543): reject when the body or any of the three
required keys is absent; reject coordinates outside [-90, 90] × [-180, 180];
otherwise insert the row and return the fresh id. -/
def add_location (db : DB) (req : Option LocationReq) : DB × AddLocationResult :=
  match req with
  | none => (db, .missingFields)
  | some data =>
    match data.name, data.latitude, data.longitude with
    | some nm, some lat, some lon =>
      add_location_insert db nm lat lon data.population data.area
    | _, _, _ => (db, .missingFields)

/-! ### History reader (`get_historical_data`, lines 626-663) -/

/-- Most-recent-first comparison on a timestamp key: the relation used by
`ORDER BY timestamp DESC`. -/
def byTsDesc {α : Type} (ts : α → ℕ) (a b : α) : Prop := ts b ≤ ts a

instance {α : Type} (ts : α → ℕ) : DecidableRel (byTsDesc ts) :=
  fun a b => Nat.decLe (ts b) (ts a)

instance {α : Type} (ts : α → ℕ) : IsTotal α (byTsDesc ts) :=
  ⟨fun a b => (Nat.le_total (ts b) (ts a)).imp id id⟩

instance {α : Type} (ts : α → ℕ) : IsTrans α (byTsDesc ts) :=
  ⟨fun _ _ _ h1 h2 => le_trans h2 h1⟩

/-- `SELECT * FROM t WHERE location_id = ? ORDER BY timestamp DESC LIMIT ?`:
filter to the location, sort most-recent-first, truncate. -/
def sql_history {α : Type} (ts : α → ℕ) (locId : α → ℕ) (rows : List α)
    (lid limit : ℕ) : List α :=
  ((rows.filter (fun r => locId r == lid)).insertionSort (byTsDesc ts)).take limit

/-- The three per-domain slices returned by `get_historical_data`. -/
structure HistResult where
  air_quality : List AirRow
  water_data : List WaterRow
  vegetation : List VegRow
deriving DecidableEq

/-- `get_historical_data` (lines 626-663): three ordered, truncated reads and
no writes — the returned database state is the input state. -/
def get_historical_data (db : DB) (lid days : ℕ) : DB × HistResult :=
  (db,
   { air_quality := sql_history AirRow.timestamp AirRow.location_id db.air_quality lid days
     water_data := sql_history WaterRow.timestamp WaterRow.location_id db.water_data lid days
     vegetation := sql_history VegRow.timestamp VegRow.location_id db.vegetation lid days })

/-! ### Alert evaluator (`get_alerts`, lines 665-716) -/

/-- The `type` field of an alert. -/
inductive AlertType
| air_quality
| flood_risk
| water_stress
deriving DecidableEq

/-- The `severity` field of an alert. -/
inductive Severity
| warning
| danger
deriving DecidableEq

/-- One alert record; the human-readable `message` string is presentation
text and is not modelled, the `timestamp` is copied from the source row as in
the code. -/
structure Alert where
  type : AlertType
  severity : Severity
  timestamp : ℕ
deriving DecidableEq

/-- The alert checks of `get_alerts` (lines 687-714), applied to the latest
air and water rows (either may be absent): air quality first (danger iff
`aqi >= 150` given `aqi > 100`), then flood risk, then water stress. -/
def get_alerts (latest_air : Option AirRow) (latest_water : Option WaterRow) :
    List Alert :=
  let airAlerts : List Alert :=
    match latest_air with
    | some a =>
      if 100 < a.aqi then
        [{ type := .air_quality
           severity := if a.aqi < 150 then .warning else .danger
           timestamp := a.timestamp }]
      else []
    | none => []
  let waterAlerts : List Alert :=
    match latest_water with
    | some w =>
      (if w.flood_risk = .High then
        [{ type := .flood_risk, severity := .danger, timestamp := w.timestamp }]
       else []) ++
      (if w.groundwater_level < -15 then
        [{ type := .water_stress, severity := .warning, timestamp := w.timestamp }]
       else [])
    | none => []
  airAlerts ++ waterAlerts

/-- The `LIMIT 1` latest-row queries feeding `get_alerts` (lines 671-683). -/
def latest_row {α : Type} (ts : α → ℕ) (locId : α → ℕ) (rows : List α)
    (lid : ℕ) : Option α :=
  (sql_history ts locId rows lid 1).head?

/-- The full `/api/alerts/<location_id>` endpoint (lines 665-716). -/
def get_alerts_for_location (db : DB) (lid : ℕ) : List Alert :=
  get_alerts
    (latest_row AirRow.timestamp AirRow.location_id db.air_quality lid)
    (latest_row WaterRow.timestamp WaterRow.location_id db.water_data lid)

/-- Modelled from the spec: the §4.5 contract, written from the spec's words
("evaluated in this fixed order: 1. if aqi > 100, danger if aqi ≥ 150 else
warning; 2. if flood_risk == High, danger; 3. if groundwater_level < -15,
warning; absence of a latest observation skips that domain's checks"), for
comparison against `get_alerts`. -/
def spec_alert_seq (latest_air : Option AirRow) (latest_water : Option WaterRow) :
    List Alert :=
  (match latest_air with
   | some a =>
     if 100 < a.aqi then
       [{ type := .air_quality
          severity := if 150 ≤ a.aqi then .danger else .warning
          timestamp := a.timestamp }]
     else []
   | none => []) ++
  (match latest_water with
   | some w =>
     if w.flood_risk = .High then
       [{ type := .flood_risk, severity := .danger, timestamp := w.timestamp }]
     else []
   | none => []) ++
  (match latest_water with
   | some w =>
     if w.groundwater_level < -15 then
       [{ type := .water_stress, severity := .warning, timestamp := w.timestamp }]
     else []
   | none => [])

/-! ### Documented simulation ranges (spec §4.2) as predicates -/

/-- The documented closed ranges for one air observation: no2 in [10,50],
o3 in [20,80], pm25 in [5,35], so2 in [1,15], aqi an integer in [50,150]. -/
def AirObs.InRange (a : AirObs) : Prop :=
  (10 ≤ a.no2 ∧ a.no2 ≤ 50) ∧ (20 ≤ a.o3 ∧ a.o3 ≤ 80) ∧
  (5 ≤ a.pm25 ∧ a.pm25 ≤ 35) ∧ (1 ≤ a.so2 ∧ a.so2 ≤ 15) ∧
  (50 ≤ a.aqi ∧ a.aqi ≤ 150)

instance (a : AirObs) : Decidable a.InRange := by
  unfold AirObs.InRange; infer_instance

/-- The documented closed ranges for one water observation:
groundwater_level in [-20,20], precipitation in [0,15] (flood_risk is one of
Low, Medium, High by construction of `FloodRisk`). -/
def WaterObs.InRange (w : WaterObs) : Prop :=
  (-20 ≤ w.groundwater_level ∧ w.groundwater_level ≤ 20) ∧
  (0 ≤ w.precipitation ∧ w.precipitation ≤ 15)

instance (w : WaterObs) : Decidable w.InRange := by
  unfold WaterObs.InRange; infer_instance

/-- The documented closed ranges for one vegetation observation: ndvi in
[0.2,0.8], evi in [0.1,0.6], green_coverage in [15,65], temperature in
[20,35]. -/
def VegObs.InRange (v : VegObs) : Prop :=
  (0.2 ≤ v.ndvi ∧ v.ndvi ≤ 0.8) ∧ (0.1 ≤ v.evi ∧ v.evi ≤ 0.6) ∧
  (15 ≤ v.green_coverage ∧ v.green_coverage ≤ 65) ∧
  (20 ≤ v.temperature ∧ v.temperature ≤ 35)

instance (v : VegObs) : Decidable v.InRange := by
  unfold VegObs.InRange; infer_instance

/-- The same ranges on a stored `air_quality` row. -/
def AirRow.InRange (r : AirRow) : Prop :=
  (10 ≤ r.no2 ∧ r.no2 ≤ 50) ∧ (20 ≤ r.o3 ∧ r.o3 ≤ 80) ∧
  (5 ≤ r.pm25 ∧ r.pm25 ≤ 35) ∧ (1 ≤ r.so2 ∧ r.so2 ≤ 15) ∧
  (50 ≤ r.aqi ∧ r.aqi ≤ 150)

/-- The same ranges on a stored `water_data` row. -/
def WaterRow.InRange (r : WaterRow) : Prop :=
  (-20 ≤ r.groundwater_level ∧ r.groundwater_level ≤ 20) ∧
  (0 ≤ r.precipitation ∧ r.precipitation ≤ 15)

/-- The same ranges on a stored `vegetation` row. -/
def VegRow.InRange (r : VegRow) : Prop :=
  (0.2 ≤ r.ndvi ∧ r.ndvi ≤ 0.8) ∧ (0.1 ≤ r.evi ∧ r.evi ≤ 0.6) ∧
  (15 ≤ r.green_coverage ∧ r.green_coverage ≤ 65) ∧
  (20 ≤ r.temperature ∧ r.temperature ≤ 35)

/-! ### Spec-side wellbeing formula (spec §4.4), for the refinement check -/

/-- Modelled from the spec: `air_score = max(0, 100 - air.aqi)`,
undefined aqi treated as 50. -/
def spec_air_score : Option AirObs → ℚ
| some a => max 0 (100 - (a.aqi : ℚ))
| none => 50

/-- Modelled from the spec: `water_score = 50 + water.groundwater_level * 2`,
undefined treated as 50. -/
def spec_water_score : Option WaterObs → ℚ
| some w => 50 + w.groundwater_level * 2
| none => 50

/-- Modelled from the spec: `green_score = vegetation.green_coverage`,
undefined treated as 50. -/
def spec_green_score : Option VegObs → ℚ
| some v => v.green_coverage
| none => 50

/-- Modelled from the spec: `index = clamp(air_score*0.4 + water_score*0.3 +
green_score*0.3, 0, 100)`. -/
def spec_wellbeing (air : Option AirObs) (water : Option WaterObs)
    (veg : Option VegObs) : ℚ :=
  clamp (spec_air_score air * 0.4 + spec_water_score water * 0.3 +
    spec_green_score veg * 0.3) 0 100

/-! ### Concrete fixtures used by witnesses and counterexamples -/

/-- A concrete deterministic oracle: `uniform` and `randint` return the lower
bound, `choice` returns `Low`. -/
def cOracle : RandOracle :=
  { uniform := fun a _ => a, randint := fun a _ => a, choice := .Low }

/-- A sample location row. -/
def exLocation : LocationRow :=
  { id := 1, name := "New Delhi", latitude := 28, longitude := 77
    population := none, area := none }

/-- A database holding only the sample location, all observation tables
empty. -/
def exDB : DB :=
  { locations := [exLocation], air_quality := [], water_data := []
    vegetation := [], api_logs := [] }

/-- A sample air observation. -/
def exAir : AirObs :=
  { timestamp := 0, no2 := 20, o3 := 40, pm25 := 10, so2 := 5, aqi := 90
    source := "SIMULATION" }

/-- A sample water observation. -/
def exWater : WaterObs :=
  { timestamp := 0, groundwater_level := 3, precipitation := 5
    flood_risk := .Low, source := "SIMULATION" }

/-- A sample vegetation observation. -/
def exVeg : VegObs :=
  { timestamp := 0, ndvi := 1, evi := 1, green_coverage := 40
    temperature := 25, source := "SIMULATION" }

/-- Adversarial air observation with aqi = 500. -/
def advAir : AirObs :=
  { timestamp := 0, no2 := 20, o3 := 40, pm25 := 10, so2 := 5, aqi := 500
    source := "SIMULATION" }

/-- Adversarial water observation with groundwater_level = +100. -/
def advWater : WaterObs :=
  { timestamp := 0, groundwater_level := 100, precipitation := 5
    flood_risk := .Low, source := "SIMULATION" }

/-- Companion vegetation observation with green_coverage = 50. -/
def advVeg : VegObs :=
  { timestamp := 0, ndvi := 1, evi := 1, green_coverage := 50
    temperature := 25, source := "SIMULATION" }

/-- Latest air row for the alert example: aqi = 160. -/
def alertAir : AirRow :=
  { location_id := 1, timestamp := 5, no2 := 20, o3 := 40, pm25 := 10
    so2 := 5, aqi := 160, data_source := "SIMULATION" }

/-- Latest water row for the alert example: flood_risk = High,
groundwater_level = -16. -/
def alertWater : WaterRow :=
  { location_id := 1, timestamp := 6, groundwater_level := -16
    precipitation := 5, flood_risk := .High, data_source := "SIMULATION" }

/-- An air row with timestamp `i`, for the history example. -/
def mkAirRow (i : ℕ) : AirRow :=
  { location_id := 1, timestamp := i, no2 := 20, o3 := 40, pm25 := 10
    so2 := 5, aqi := 60, data_source := "SIMULATION" }

/-- A database with 10 stored air rows (timestamps 0..9) for location 1. -/
def histDB : DB :=
  { locations := [exLocation]
    air_quality := (List.range 10).map mkAirRow
    water_data := [], vegetation := [], api_logs := [] }

/-- An air-fetch environment whose first vendor call raises a network error
inside the `try` body. -/
def exAirEnvRaise : AirEnv :=
  { authenticated := true, hasApiKey := true, pathA := .raises
    earthaccessAvailable := false, searchRaises := false
    searchNonempty := false, downloadRaises := false, pathC := .okOther }

/-- A water-fetch environment whose first vendor call raises. -/
def exWaterEnvRaise : WaterEnv :=
  { authenticated := true, hasApiKey := true, pathA := .raises
    earthaccessAvailable := false, searchRaises := false
    searchNonempty := false }

/-- A vegetation-fetch environment whose first vendor call raises. -/
def exVegEnvRaise : VegEnv :=
  { authenticated := true, hasApiKey := true, pathA := .raises
    earthaccessAvailable := false, searchRaises := false
    searchNonempty := false }

/-- The audit row written by a successful dashboard query (lines 600-603). -/
def successLog (loc : LocationRow) : LogRow :=
  { endpoint := "dashboard", latitude := loc.latitude
    longitude := loc.longitude, response_status := "success" }

/-! ### Helper lemmas -/

/-- The concrete oracle satisfies the `random` module contracts. -/
theorem cOracle_valid : cOracle.Valid :=
  ⟨fun a _ h => ⟨le_refl a, h⟩, fun a _ h => ⟨le_refl a, h⟩⟩

/-- Full characterization of the air fetch: vendor-tagged data exactly under
`AirEnv.vendorSuccess`, simulation otherwise. -/
theorem air_fetch_eq (env : AirEnv) (o : RandOracle) (now : ℕ) :
    get_air_quality_data env o now =
      if env.vendorSuccess then process_nasa_air_data o now
      else simulate_air_quality_data o now := by
  obtain ⟨auth, key, pA, ea, sr, sn, dr, pC⟩ := env
  cases auth <;> cases key <;> cases pA <;> cases ea <;> cases sr <;>
    cases sn <;> cases dr <;> cases pC <;> rfl

/-- Full characterization of the water fetch. -/
theorem water_fetch_eq (env : WaterEnv) (o : RandOracle) (now : ℕ) :
    get_water_security_data env o now =
      if env.vendorSuccess then process_nasa_water_data o now
      else simulate_water_data o now := by
  obtain ⟨auth, key, pA, ea, sr, sn⟩ := env
  cases auth <;> cases key <;> cases pA <;> cases ea <;> cases sr <;>
    cases sn <;> rfl

/-- Full characterization of the vegetation fetch. -/
theorem veg_fetch_eq (env : VegEnv) (o : RandOracle) (now : ℕ) :
    get_vegetation_data env o now =
      if env.vendorSuccess then process_nasa_vegetation_data o now
      else simulate_vegetation_data o now := by
  obtain ⟨auth, key, pA, ea, sr, sn⟩ := env
  cases auth <;> cases key <;> cases pA <;> cases ea <;> cases sr <;>
    cases sn <;> rfl

/-- A valid oracle keeps the simulated air fields inside the documented
ranges. -/
theorem simulate_air_inRange (o : RandOracle) (now : ℕ) (h : o.Valid) :
    (simulate_air_quality_data o now).InRange := by
  obtain ⟨hu, hi⟩ := h
  exact ⟨hu 10 50 (by norm_num), hu 20 80 (by norm_num),
    hu 5 35 (by norm_num), hu 1 15 (by norm_num), hi 50 150 (by norm_num)⟩

/-- A valid oracle keeps the vendor-processed air fields inside the
documented ranges (same generators as simulation). -/
theorem process_air_inRange (o : RandOracle) (now : ℕ) (h : o.Valid) :
    (process_nasa_air_data o now).InRange := by
  obtain ⟨hu, hi⟩ := h
  exact ⟨hu 10 50 (by norm_num), hu 20 80 (by norm_num),
    hu 5 35 (by norm_num), hu 1 15 (by norm_num), hi 50 150 (by norm_num)⟩

/-- A valid oracle keeps the simulated water fields inside the documented
ranges. -/
theorem simulate_water_inRange (o : RandOracle) (now : ℕ) (h : o.Valid) :
    (simulate_water_data o now).InRange := by
  obtain ⟨hu, _⟩ := h
  exact ⟨hu (-20) 20 (by norm_num), hu 0 15 (by norm_num)⟩

/-- A valid oracle keeps the vendor-processed water fields inside the
documented ranges. -/
theorem process_water_inRange (o : RandOracle) (now : ℕ) (h : o.Valid) :
    (process_nasa_water_data o now).InRange := by
  obtain ⟨hu, _⟩ := h
  exact ⟨hu (-20) 20 (by norm_num), hu 0 15 (by norm_num)⟩

/-- A valid oracle keeps the simulated vegetation fields inside the
documented ranges. -/
theorem simulate_veg_inRange (o : RandOracle) (now : ℕ) (h : o.Valid) :
    (simulate_vegetation_data o now).InRange := by
  obtain ⟨hu, _⟩ := h
  exact ⟨hu 0.2 0.8 (by norm_num), hu 0.1 0.6 (by norm_num),
    hu 15 65 (by norm_num), hu 20 35 (by norm_num)⟩

/-- A valid oracle keeps the vendor-processed vegetation fields inside the
documented ranges. -/
theorem process_veg_inRange (o : RandOracle) (now : ℕ) (h : o.Valid) :
    (process_nasa_vegetation_data o now).InRange := by
  obtain ⟨hu, _⟩ := h
  exact ⟨hu 0.2 0.8 (by norm_num), hu 0.1 0.6 (by norm_num),
    hu 15 65 (by norm_num), hu 20 35 (by norm_num)⟩

/-- Any fetched air observation is inside the documented ranges, whatever the
environment did. -/
theorem fetch_air_inRange (env : AirEnv) (o : RandOracle) (now : ℕ)
    (h : o.Valid) : (get_air_quality_data env o now).InRange := by
  rw [air_fetch_eq]
  split
  · exact process_air_inRange o now h
  · exact simulate_air_inRange o now h

/-- Any fetched water observation is inside the documented ranges. -/
theorem fetch_water_inRange (env : WaterEnv) (o : RandOracle) (now : ℕ)
    (h : o.Valid) : (get_water_security_data env o now).InRange := by
  rw [water_fetch_eq]
  split
  · exact process_water_inRange o now h
  · exact simulate_water_inRange o now h

/-- Any fetched vegetation observation is inside the documented ranges. -/
theorem fetch_veg_inRange (env : VegEnv) (o : RandOracle) (now : ℕ)
    (h : o.Valid) : (get_vegetation_data env o now).InRange := by
  rw [veg_fetch_eq]
  split
  · exact process_veg_inRange o now h
  · exact simulate_veg_inRange o now h

/-- The dashboard wellbeing value agrees with the spec formula. -/
theorem dashboard_wellbeing_eq_spec (a : Option AirObs) (w : Option WaterObs)
    (v : Option VegObs) : dashboard_wellbeing a w v = spec_wellbeing a w v := by
  cases a <;> cases w <;> cases v <;> rfl

/-- The dashboard wellbeing value is clamped into [0, 100]. -/
theorem dashboard_wellbeing_bounds (a : Option AirObs) (w : Option WaterObs)
    (v : Option VegObs) :
    0 ≤ dashboard_wellbeing a w v ∧ dashboard_wellbeing a w v ≤ 100 :=
  ⟨le_min (by norm_num) (le_max_left 0 _), min_le_left 100 _⟩

/-- Every id stored in the `locations` table is below the fresh id. -/
theorem id_lt_nextLocationId (db : DB) (l : LocationRow)
    (h : l ∈ db.locations) : l.id < db.nextLocationId := by
  have aux : ∀ (xs : List LocationRow), l ∈ xs →
      l.id ≤ xs.foldr (fun r acc => max r.id acc) 0 := by
    intro xs hmem
    induction xs with
    | nil => cases hmem
    | cons x xs ih =>
      rcases List.mem_cons.mp hmem with hx | hx
      · subst hx; exact le_max_left _ _
      · exact le_trans (ih hx) (le_max_right _ _)
  exact Nat.lt_succ_of_le (aux db.locations h)

/-- The two severity conditionals (source and spec form) agree. -/
theorem severity_if_eq (q : ℤ) :
    (if q < 150 then Severity.warning else Severity.danger) =
      (if 150 ≤ q then Severity.danger else Severity.warning) := by
  by_cases h : q < 150
  · rw [if_pos h, if_neg (not_le.mpr h)]
  · rw [if_neg h, if_pos (not_lt.mp h)]

/-- Unknown location id: the dashboard query returns not-found with the
database untouched. -/
theorem dashboard_not_found (db : DB) (lid : ℕ) (a : AirObs) (w : WaterObs)
    (v : VegObs) (failAt : Option ℕ) (hf : db.findLocation lid = none) :
    get_dashboard_data db lid a w v failAt = (db, .notFound) := by
  unfold get_dashboard_data
  rw [hf]

/-- Known location id: the dashboard query runs the found-location body. -/
theorem get_dashboard_found (db : DB) (lid : ℕ) (a : AirObs) (w : WaterObs)
    (v : VegObs) (failAt : Option ℕ) (loc : LocationRow)
    (hf : db.findLocation lid = some loc) :
    get_dashboard_data db lid a w v failAt =
      dashboard_found_body db lid loc a w v failAt := by
  unfold get_dashboard_data
  rw [hf]

/-- Known location id, no injected fault: both transactions commit and the
query succeeds with the clamped wellbeing value. -/
theorem dashboard_success (db : DB) (lid : ℕ) (a : AirObs) (w : WaterObs)
    (v : VegObs) (loc : LocationRow) (hf : db.findLocation lid = some loc) :
    get_dashboard_data db lid a w v none =
      ({ db with
         air_quality := db.air_quality ++ [AirRow.ofObs lid a]
         water_data := db.water_data ++ [WaterRow.ofObs lid w]
         vegetation := db.vegetation ++ [VegRow.ofObs lid v]
         api_logs := db.api_logs ++ [successLog loc] },
       .success (dashboard_wellbeing (some a) (some w) (some v))) := by
  rw [get_dashboard_found db lid a w v none loc hf]
  rfl

/-- Known location id, fault injected at one of the three domain inserts:
the first transaction rolls back, nothing persists, the query fails. -/
theorem dashboard_domain_fault (db : DB) (lid : ℕ) (a : AirObs) (w : WaterObs)
    (v : VegObs) (loc : LocationRow) (hf : db.findLocation lid = some loc)
    (i : ℕ) (hi : i < 3) :
    get_dashboard_data db lid a w v (some i) = (db, .failure) := by
  rw [get_dashboard_found db lid a w v (some i) loc hf]
  interval_cases i <;> rfl

/-- Known location id, fault injected at the audit-log insert: the three
already-committed domain rows persist, the audit row does not, and the query
reports failure. -/
theorem dashboard_log_fault (db : DB) (lid : ℕ) (a : AirObs) (w : WaterObs)
    (v : VegObs) (loc : LocationRow) (hf : db.findLocation lid = some loc) :
    get_dashboard_data db lid a w v (some 3) =
      ({ db with
         air_quality := db.air_quality ++ [AirRow.ofObs lid a]
         water_data := db.water_data ++ [WaterRow.ofObs lid w]
         vegetation := db.vegetation ++ [VegRow.ofObs lid v] },
       .failure) := by
  rw [get_dashboard_found db lid a w v (some 3) loc hf]
  rfl

/-! ### Claim theorems -/

/-- C1: For every dashboard query, the wellbeing index equals
`clamp(air_score*0.4 + water_score*0.3 + green_score*0.3, 0, 100)` with
`air_score = max(0, 100 - aqi)`, `water_score = 50 + groundwater_level * 2`,
`green_score = green_coverage`, each defaulting to 50 on an absent
observation; the returned index lies in [0,100] for every input, including
aqi = 500 and groundwater_level = +100 (where it evaluates to 90). -/
theorem c1_wellbeing_clamped :
    (∀ (a : Option AirObs) (w : Option WaterObs) (v : Option VegObs),
        dashboard_wellbeing a w v = spec_wellbeing a w v) ∧
    (∀ (a : Option AirObs) (w : Option WaterObs) (v : Option VegObs),
        0 ≤ dashboard_wellbeing a w v ∧ dashboard_wellbeing a w v ≤ 100) ∧
    (∀ (db : DB) (lid : ℕ) (air : AirObs) (water : WaterObs) (veg : VegObs)
        (db2 : DB) (i : ℚ),
        get_dashboard_data db lid air water veg none = (db2, .success i) →
          i = spec_wellbeing (some air) (some water) (some veg) ∧
          0 ≤ i ∧ i ≤ 100) ∧
    dashboard_wellbeing (some advAir) (some advWater) (some advVeg) = 90 := by
  refine ⟨dashboard_wellbeing_eq_spec, dashboard_wellbeing_bounds, ?_, ?_⟩
  · intro db lid air water veg db2 i h
    cases hf : db.findLocation lid with
    | none => rw [dashboard_not_found db lid air water veg none hf] at h; cases h
    | some loc =>
      rw [dashboard_success db lid air water veg loc hf, Prod.mk.injEq] at h
      obtain ⟨-, h2⟩ := h
      injection h2 with h3
      subst h3
      exact ⟨dashboard_wellbeing_eq_spec _ _ _, dashboard_wellbeing_bounds _ _ _⟩
  · rw [dashboard_wellbeing, wellbeing_index]
    norm_num [advAir, advWater, advVeg, min_def, max_def]

/-- C1 witness: the dashboard query on the sample database succeeds and its
index satisfies the clamped formula and the bounds. -/
theorem c1_witness :
    dashboard_wellbeing (some exAir) (some exWater) (some exVeg) =
        spec_wellbeing (some exAir) (some exWater) (some exVeg) ∧
    0 ≤ dashboard_wellbeing (some exAir) (some exWater) (some exVeg) ∧
    dashboard_wellbeing (some exAir) (some exWater) (some exVeg) ≤ 100 := by
  have h := c1_wellbeing_clamped.2.2.1 exDB 1 exAir exWater exVeg
    (get_dashboard_data exDB 1 exAir exWater exVeg none).1
    (dashboard_wellbeing (some exAir) (some exWater) (some exVeg)) rfl
  exact ⟨h.1, h.2⟩

/-- C3 counterexample: the placeholder username with a non-empty password
resolves to Live (the code has no placeholder check), and non-empty
credentials with a raising `earthaccess.login` resolve to Simulated — both
contradict the claim that the mode is Live exactly when both strings are
non-empty and non-placeholder, by string presence alone. -/
theorem c3_counterexample :
    resolve_authenticated placeholder_username "hunter2" AuthEnv.notInstalled = true ∧
    claimed_live_mode placeholder_username "hunter2" = false ∧
    resolve_authenticated "alice" "hunter2" AuthEnv.loginRaises = false ∧
    claimed_live_mode "alice" "hunter2" = true := by decide

/-- C3 amended: the resolved flag is Live iff both credential strings are
non-empty (Python truthiness) and the authentication setup attempt does not
raise; no placeholder value is special-cased. Over the 2x2 presence matrix,
in any environment whose setup attempt succeeds, Live holds exactly when both
strings are non-empty. -/
theorem c3_amended_mode :
    (∀ (u p : String) (env : AuthEnv),
        resolve_authenticated u p env =
          ((u != "") && (p != "") && env.setupSucceeds)) ∧
    (∀ env : AuthEnv, env.setupSucceeds = true →
        resolve_authenticated "" "" env = false ∧
        resolve_authenticated "alice" "" env = false ∧
        resolve_authenticated "" "hunter2" env = false ∧
        resolve_authenticated "alice" "hunter2" env = true) := by
  constructor
  · intro u p env
    unfold resolve_authenticated setup_authentication AuthEnv.setupSucceeds
    cases hu : (u != "") <;> cases hp : (p != "") <;> cases env <;> simp
  · intro env henv
    cases env <;> simp_all [resolve_authenticated, setup_authentication,
      AuthEnv.setupSucceeds]

/-- C3 amended witness: with `earthaccess` not installed the 2x2 matrix row
with both credentials present resolves to Live. -/
theorem c3_amended_witness :
    resolve_authenticated "alice" "hunter2" AuthEnv.notInstalled = true :=
  ((c3_amended_mode.2 AuthEnv.notInstalled (by decide)).2.2.2)

/-- C5: every output of the per-domain simulate operations falls within the
documented closed ranges, for any oracle satisfying the `random` module
contracts; the simulated flood risk is one of Low, Medium, High. -/
theorem c5_simulation_ranges :
    ∀ (o : RandOracle) (now : ℕ), o.Valid →
      (simulate_air_quality_data o now).InRange ∧
      (simulate_water_data o now).InRange ∧
      ((simulate_water_data o now).flood_risk = .Low ∨
       (simulate_water_data o now).flood_risk = .Medium ∨
       (simulate_water_data o now).flood_risk = .High) ∧
      (simulate_vegetation_data o now).InRange := by
  intro o now h
  refine ⟨simulate_air_inRange o now h, simulate_water_inRange o now h, ?_,
    simulate_veg_inRange o now h⟩
  cases hc : o.choice <;> simp [simulate_water_data, hc]

/-- C5 witness: the concrete oracle instantiates the range guarantees. -/
theorem c5_witness :
    (simulate_air_quality_data cOracle 0).InRange ∧
    (simulate_water_data cOracle 0).InRange ∧
    ((simulate_water_data cOracle 0).flood_risk = .Low ∨
     (simulate_water_data cOracle 0).flood_risk = .Medium ∨
     (simulate_water_data cOracle 0).flood_risk = .High) ∧
    (simulate_vegetation_data cOracle 0).InRange :=
  c5_simulation_ranges cOracle 0 cOracle_valid

/-- C6: the alert evaluator applies its checks in the fixed order air
quality, flood risk, water stress, with the claimed thresholds and
severities, skips a domain whose latest observation is absent, and on
aqi = 160 / flood_risk = High / groundwater_level = -16 yields exactly the
three alerts [air_quality/danger, flood_risk/danger, water_stress/warning]. -/
theorem c6_alert_order :
    (∀ (la : Option AirRow) (lw : Option WaterRow),
        get_alerts la lw = spec_alert_seq la lw) ∧
    get_alerts none none = [] ∧
    (∀ lw, get_alerts none lw =
        spec_alert_seq none lw) ∧
    get_alerts (some alertAir) (some alertWater) =
      [{ type := .air_quality, severity := .danger, timestamp := 5 },
       { type := .flood_risk, severity := .danger, timestamp := 6 },
       { type := .water_stress, severity := .warning, timestamp := 6 }] := by
  have main : ∀ (la : Option AirRow) (lw : Option WaterRow),
      get_alerts la lw = spec_alert_seq la lw := by
    intro la lw
    cases la <;> cases lw <;>
      simp [get_alerts, spec_alert_seq, severity_if_eq, List.append_assoc]
  exact ⟨main, by decide, fun lw => main none lw, by decide⟩

/-- C2 counterexample: with a store fault injected at the fourth planned
insert of the batch (the `api_logs` audit entry), the query reports failure,
yet all three domain rows of that query persist — because the code commits
the three domain inserts (line 591) before inserting the audit row in a
second transaction (line 605). This refutes the claim that the three domain
inserts plus the audit entry form a single atomic batch in which a failing
insert leaves no row persisted. -/
theorem c2_counterexample :
    (get_dashboard_data exDB 1 exAir exWater exVeg (some 3)).2 =
        DashResult.failure ∧
    (get_dashboard_data exDB 1 exAir exWater exVeg (some 3)).1.air_quality ≠
        exDB.air_quality ∧
    (get_dashboard_data exDB 1 exAir exWater exVeg (some 3)).1.water_data ≠
        exDB.water_data ∧
    (get_dashboard_data exDB 1 exAir exWater exVeg (some 3)).1.vegetation ≠
        exDB.vegetation := by decide

/-- C2 amended: the three domain inserts form one atomic batch committed
together, and the `api_logs` entry is a second, separate commit. If any of
the three domain inserts fails, none of the three rows persist and the query
reports failure; if the audit insert fails, the three domain rows remain
committed, no audit row is written, and the query reports failure; with no
fault all four rows are written and the query succeeds. -/
theorem c2_amended_atomicity :
    ∀ (db : DB) (lid : ℕ) (a : AirObs) (w : WaterObs) (v : VegObs)
      (loc : LocationRow), db.findLocation lid = some loc →
      (∀ i : ℕ, i < 3 →
          get_dashboard_data db lid a w v (some i) = (db, .failure)) ∧
      (get_dashboard_data db lid a w v (some 3) =
        ({ db with
           air_quality := db.air_quality ++ [AirRow.ofObs lid a]
           water_data := db.water_data ++ [WaterRow.ofObs lid w]
           vegetation := db.vegetation ++ [VegRow.ofObs lid v] },
         .failure)) ∧
      (get_dashboard_data db lid a w v none =
        ({ db with
           air_quality := db.air_quality ++ [AirRow.ofObs lid a]
           water_data := db.water_data ++ [WaterRow.ofObs lid w]
           vegetation := db.vegetation ++ [VegRow.ofObs lid v]
           api_logs := db.api_logs ++ [successLog loc] },
         .success (dashboard_wellbeing (some a) (some w) (some v)))) := by
  intro db lid a w v loc hf
  exact ⟨fun i hi => dashboard_domain_fault db lid a w v loc hf i hi,
    dashboard_log_fault db lid a w v loc hf,
    dashboard_success db lid a w v loc hf⟩

/-- C2 amended witness: on the sample database, a fault at the first domain
insert leaves the database unchanged and reports failure. -/
theorem c2_amended_witness :
    get_dashboard_data exDB 1 exAir exWater exVeg (some 0) =
      (exDB, DashResult.failure) :=
  (c2_amended_atomicity exDB 1 exAir exWater exVeg exLocation (by decide)).1
    0 (by decide)

/-- C7: location creation rejects a request missing any of name, latitude,
longitude, rejects latitude outside [-90,90] or longitude outside
[-180,180] (91 and 200 are rejected), and accepts the boundary values
latitude = -90, longitude = 180, returning a fresh id. -/
theorem c7_location_validation :
    (∀ db : DB, add_location db none = (db, .missingFields)) ∧
    (∀ (db : DB) (req : LocationReq),
        req.name = none ∨ req.latitude = none ∨ req.longitude = none →
        add_location db (some req) = (db, .missingFields)) ∧
    (∀ (db : DB) (nm : String) (lat lon : ℚ) (pop : Option ℤ) (ar : Option ℚ),
        (lat < -90 ∨ 90 < lat ∨ lon < -180 ∨ 180 < lon) →
        add_location db (some ⟨some nm, some lat, some lon, pop, ar⟩) =
          (db, .invalidCoordinates)) ∧
    (add_location exDB (some ⟨some "Paris", some 91, some 2, none, none⟩) =
        (exDB, .invalidCoordinates)) ∧
    (add_location exDB (some ⟨some "Paris", some 48, some 200, none, none⟩) =
        (exDB, .invalidCoordinates)) ∧
    (∀ (db : DB) (nm : String) (pop : Option ℤ) (ar : Option ℚ),
        add_location db (some ⟨some nm, some (-90), some 180, pop, ar⟩) =
          ({ db with
             locations := db.locations ++
               [{ id := db.nextLocationId, name := nm, latitude := -90
                  longitude := 180, population := pop, area := ar }] },
           .added db.nextLocationId) ∧
        ∀ l ∈ db.locations, l.id ≠ db.nextLocationId) := by
  refine ⟨fun db => rfl, ?_, ?_, by decide, by decide, ?_⟩
  · intro db req hmiss
    obtain ⟨nm, lat, lon, pop, ar⟩ := req
    cases nm <;> cases lat <;> cases lon <;>
      first
        | rfl
        | (rcases hmiss with h | h | h <;> exact Option.noConfusion h)
  · intro db nm lat lon pop ar hout
    show add_location_insert db nm lat lon pop ar = _
    unfold add_location_insert
    rw [if_neg]
    rintro ⟨⟨h1, h2⟩, h3, h4⟩
    rcases hout with h | h | h | h <;> linarith
  · intro db nm pop ar
    constructor
    · show add_location_insert db nm (-90) 180 pop ar = _
      unfold add_location_insert
      rw [if_pos (by norm_num)]
    · intro l hl
      exact Nat.ne_of_lt (id_lt_nextLocationId db l hl)

/-- C7 witness: a request missing its name is rejected, an out-of-range
latitude is rejected, and the boundary request is accepted with a fresh id. -/
theorem c7_witness :
    add_location exDB (some ⟨none, some 1, some 1, none, none⟩) =
        (exDB, .missingFields) ∧
    add_location exDB (some ⟨some "X", some 91, some 0, none, none⟩) =
        (exDB, .invalidCoordinates) ∧
    add_location exDB (some ⟨some "Y", some (-90), some 180, none, none⟩) =
        ({ exDB with
           locations := exDB.locations ++
             [{ id := exDB.nextLocationId, name := "Y", latitude := -90
                longitude := 180, population := none, area := none }] },
         .added exDB.nextLocationId) :=
  ⟨c7_location_validation.2.1 exDB ⟨none, some 1, some 1, none, none⟩
      (Or.inl rfl),
   c7_location_validation.2.2.1 exDB "X" 91 0 none none
      (Or.inr (Or.inl (by norm_num))),
   (c7_location_validation.2.2.2.2.2 exDB "Y" none none).1⟩

/-- Known location, fault at any of the three domain inserts (general
`failAt` form). -/
theorem dashboard_fault_early (db : DB) (lid : ℕ) (a : AirObs) (w : WaterObs)
    (v : VegObs) (failAt : Option ℕ) (loc : LocationRow)
    (hf : db.findLocation lid = some loc)
    (h0 : failAt = some 0 ∨ failAt = some 1 ∨ failAt = some 2) :
    get_dashboard_data db lid a w v failAt = (db, .failure) := by
  rw [get_dashboard_found db lid a w v failAt loc hf]
  unfold dashboard_found_body
  rw [if_pos h0]

/-- Known location, fault at the audit insert (general `failAt` form). -/
theorem dashboard_fault_log (db : DB) (lid : ℕ) (a : AirObs) (w : WaterObs)
    (v : VegObs) (failAt : Option ℕ) (loc : LocationRow)
    (hf : db.findLocation lid = some loc)
    (h0 : ¬(failAt = some 0 ∨ failAt = some 1 ∨ failAt = some 2))
    (h3 : failAt = some 3) :
    get_dashboard_data db lid a w v failAt =
      ({ db with
         air_quality := db.air_quality ++ [AirRow.ofObs lid a]
         water_data := db.water_data ++ [WaterRow.ofObs lid w]
         vegetation := db.vegetation ++ [VegRow.ofObs lid v] },
       .failure) := by
  rw [get_dashboard_found db lid a w v failAt loc hf]
  unfold dashboard_found_body
  rw [if_neg h0, if_pos h3]

/-- Known location, no fault reached (general `failAt` form: also covers a
fault index beyond the four planned inserts). -/
theorem dashboard_no_fault (db : DB) (lid : ℕ) (a : AirObs) (w : WaterObs)
    (v : VegObs) (failAt : Option ℕ) (loc : LocationRow)
    (hf : db.findLocation lid = some loc)
    (h0 : ¬(failAt = some 0 ∨ failAt = some 1 ∨ failAt = some 2))
    (h3 : ¬failAt = some 3) :
    get_dashboard_data db lid a w v failAt =
      ({ db with
         air_quality := db.air_quality ++ [AirRow.ofObs lid a]
         water_data := db.water_data ++ [WaterRow.ofObs lid w]
         vegetation := db.vegetation ++ [VegRow.ofObs lid v]
         api_logs := db.api_logs ++ [successLog loc] },
       .success (dashboard_wellbeing (some a) (some w) (some v))) := by
  rw [get_dashboard_found db lid a w v failAt loc hf]
  unfold dashboard_found_body
  rw [if_neg h0, if_neg h3]
  rfl

/-- C10: a dashboard query for an unknown location id returns not-found with
every table unchanged (no fetch result is persisted), and the `api_logs`
audit trail receives a row only when the whole pipeline succeeds: failed or
not-found queries leave it untouched, a successful query appends exactly one
row. -/
theorem c10_notfound_frame :
    ∀ (db : DB) (lid : ℕ) (a : AirObs) (w : WaterObs) (v : VegObs)
      (failAt : Option ℕ),
      (db.findLocation lid = none →
          get_dashboard_data db lid a w v failAt = (db, .notFound)) ∧
      ((∀ i : ℚ, (get_dashboard_data db lid a w v failAt).2 ≠ .success i) →
          (get_dashboard_data db lid a w v failAt).1.api_logs = db.api_logs) ∧
      (∀ (db2 : DB) (i : ℚ),
          get_dashboard_data db lid a w v failAt = (db2, .success i) →
          ∃ row : LogRow, db2.api_logs = db.api_logs ++ [row]) := by
  intro db lid a w v failAt
  refine ⟨fun hf => dashboard_not_found db lid a w v failAt hf, ?_, ?_⟩
  · intro hns
    cases hf : db.findLocation lid with
    | none => rw [dashboard_not_found db lid a w v failAt hf]
    | some loc =>
      by_cases h0 : failAt = some 0 ∨ failAt = some 1 ∨ failAt = some 2
      · rw [dashboard_fault_early db lid a w v failAt loc hf h0]
      · by_cases h3 : failAt = some 3
        · rw [dashboard_fault_log db lid a w v failAt loc hf h0 h3]
        · exact absurd
            (by rw [dashboard_no_fault db lid a w v failAt loc hf h0 h3] :
              (get_dashboard_data db lid a w v failAt).2 =
                .success (dashboard_wellbeing (some a) (some w) (some v)))
            (hns _)
  · intro db2 i h
    cases hf : db.findLocation lid with
    | none =>
      rw [dashboard_not_found db lid a w v failAt hf] at h
      injection h with h1 h2
      exact DashResult.noConfusion h2
    | some loc =>
      by_cases h0 : failAt = some 0 ∨ failAt = some 1 ∨ failAt = some 2
      · rw [dashboard_fault_early db lid a w v failAt loc hf h0] at h
        injection h with h1 h2
        exact DashResult.noConfusion h2
      · by_cases h3 : failAt = some 3
        · rw [dashboard_fault_log db lid a w v failAt loc hf h0 h3] at h
          injection h with h1 h2
          exact DashResult.noConfusion h2
        · rw [dashboard_no_fault db lid a w v failAt loc hf h0 h3] at h
          injection h with h1 h2
          exact ⟨successLog loc, by rw [← h1]⟩

/-- C10 witness: a query for unknown id 99 on the sample database returns
not-found and leaves the database unchanged. -/
theorem c10_witness :
    get_dashboard_data exDB 99 exAir exWater exVeg none =
      (exDB, DashResult.notFound) :=
  (c10_notfound_frame exDB 99 exAir exWater exVeg none).1 (by decide)

/-- C4: none of the three domain fetch operations raises to its caller — an
error propagated out of the vendor-path `try` body is absorbed by the
`except Exception` handler, which resolves it to the simulated observation;
and whenever no vendor path produces data (the fetch environment has no
vendor success), the fetch returns exactly the simulated observation. -/
theorem c4_fetch_never_raises :
    (∀ (env : AirEnv) (o : RandOracle) (now : ℕ) (e : PyErr),
        air_try_block env o now = Except.error e →
        get_air_quality_data env o now = simulate_air_quality_data o now) ∧
    (∀ (env : WaterEnv) (o : RandOracle) (now : ℕ) (e : PyErr),
        water_try_block env o now = Except.error e →
        get_water_security_data env o now = simulate_water_data o now) ∧
    (∀ (env : VegEnv) (o : RandOracle) (now : ℕ) (e : PyErr),
        veg_try_block env o now = Except.error e →
        get_vegetation_data env o now = simulate_vegetation_data o now) ∧
    (∀ (env : AirEnv) (o : RandOracle) (now : ℕ),
        env.vendorSuccess = false →
        get_air_quality_data env o now = simulate_air_quality_data o now) ∧
    (∀ (env : WaterEnv) (o : RandOracle) (now : ℕ),
        env.vendorSuccess = false →
        get_water_security_data env o now = simulate_water_data o now) ∧
    (∀ (env : VegEnv) (o : RandOracle) (now : ℕ),
        env.vendorSuccess = false →
        get_vegetation_data env o now = simulate_vegetation_data o now) := by
  refine ⟨?_, ?_, ?_, ?_, ?_, ?_⟩
  · intro env o now e h
    unfold get_air_quality_data
    cases hb : env.authenticated <;> simp [h]
  · intro env o now e h
    unfold get_water_security_data
    cases hb : env.authenticated <;> simp [h]
  · intro env o now e h
    unfold get_vegetation_data
    cases hb : env.authenticated <;> simp [h]
  · intro env o now hv
    rw [air_fetch_eq, hv]
    rfl
  · intro env o now hv
    rw [water_fetch_eq, hv]
    rfl
  · intro env o now hv
    rw [veg_fetch_eq, hv]
    rfl

/-- C4 witness: in an environment whose first vendor call raises inside the
`try` body, each fetch returns the simulated observation instead of
propagating the error. -/
theorem c4_witness :
    get_air_quality_data exAirEnvRaise cOracle 0 =
        simulate_air_quality_data cOracle 0 ∧
    get_water_security_data exWaterEnvRaise cOracle 0 =
        simulate_water_data cOracle 0 ∧
    get_vegetation_data exVegEnvRaise cOracle 0 =
        simulate_vegetation_data cOracle 0 :=
  ⟨c4_fetch_never_raises.1 exAirEnvRaise cOracle 0 .netError rfl,
   c4_fetch_never_raises.2.1 exWaterEnvRaise cOracle 0 .netError rfl,
   c4_fetch_never_raises.2.2.1 exVegEnvRaise cOracle 0 .netError rfl⟩

/-- C8: every observation produced by any fetch path — vendor-tagged or
simulated — has all numeric fields inside the documented simulation ranges
(live payloads are mapped through the same bounded-random generators), and
consequently every row the dashboard query stores is either a pre-existing
row or a row inside those ranges. -/
theorem c8_range_invariant :
    ∀ (ea : AirEnv) (ew : WaterEnv) (ev : VegEnv) (o : RandOracle) (now : ℕ),
      o.Valid →
      ((get_air_quality_data ea o now).InRange ∧
       (get_water_security_data ew o now).InRange ∧
       (get_vegetation_data ev o now).InRange) ∧
      (∀ (db : DB) (lid : ℕ) (failAt : Option ℕ),
        (∀ r ∈ (get_dashboard_data db lid (get_air_quality_data ea o now)
            (get_water_security_data ew o now) (get_vegetation_data ev o now)
            failAt).1.air_quality, r ∈ db.air_quality ∨ r.InRange) ∧
        (∀ r ∈ (get_dashboard_data db lid (get_air_quality_data ea o now)
            (get_water_security_data ew o now) (get_vegetation_data ev o now)
            failAt).1.water_data, r ∈ db.water_data ∨ r.InRange) ∧
        (∀ r ∈ (get_dashboard_data db lid (get_air_quality_data ea o now)
            (get_water_security_data ew o now) (get_vegetation_data ev o now)
            failAt).1.vegetation, r ∈ db.vegetation ∨ r.InRange)) := by
  intro ea ew ev o now hval
  have hair := fetch_air_inRange ea o now hval
  have hwater := fetch_water_inRange ew o now hval
  have hveg := fetch_veg_inRange ev o now hval
  refine ⟨⟨hair, hwater, hveg⟩, ?_⟩
  intro db lid failAt
  set a := get_air_quality_data ea o now with ha
  set w := get_water_security_data ew o now with hw
  set v := get_vegetation_data ev o now with hv2
  have main : ∀ T : DB × DashResult,
      get_dashboard_data db lid a w v failAt = T →
      (∀ r ∈ T.1.air_quality, r ∈ db.air_quality ∨ r.InRange) ∧
      (∀ r ∈ T.1.water_data, r ∈ db.water_data ∨ r.InRange) ∧
      (∀ r ∈ T.1.vegetation, r ∈ db.vegetation ∨ r.InRange) := by
    intro T hT
    cases hf : db.findLocation lid with
    | none =>
      rw [dashboard_not_found db lid a w v failAt hf] at hT
      subst hT
      exact ⟨fun r hr => Or.inl hr, fun r hr => Or.inl hr, fun r hr => Or.inl hr⟩
    | some loc =>
      by_cases h0 : failAt = some 0 ∨ failAt = some 1 ∨ failAt = some 2
      · rw [dashboard_fault_early db lid a w v failAt loc hf h0] at hT
        subst hT
        exact ⟨fun r hr => Or.inl hr, fun r hr => Or.inl hr, fun r hr => Or.inl hr⟩
      · have happend :
            T.1.air_quality = db.air_quality ++ [AirRow.ofObs lid a] ∧
            T.1.water_data = db.water_data ++ [WaterRow.ofObs lid w] ∧
            T.1.vegetation = db.vegetation ++ [VegRow.ofObs lid v] := by
          by_cases h3 : failAt = some 3
          · rw [dashboard_fault_log db lid a w v failAt loc hf h0 h3] at hT
            subst hT
            exact ⟨rfl, rfl, rfl⟩
          · rw [dashboard_no_fault db lid a w v failAt loc hf h0 h3] at hT
            subst hT
            exact ⟨rfl, rfl, rfl⟩
        obtain ⟨e1, e2, e3⟩ := happend
        refine ⟨?_, ?_, ?_⟩
        · intro r hr
          rw [e1] at hr
          rcases List.mem_append.mp hr with hr | hr
          · exact Or.inl hr
          · rw [List.mem_singleton.mp hr]
            exact Or.inr hair
        · intro r hr
          rw [e2] at hr
          rcases List.mem_append.mp hr with hr | hr
          · exact Or.inl hr
          · rw [List.mem_singleton.mp hr]
            exact Or.inr hwater
        · intro r hr
          rw [e3] at hr
          rcases List.mem_append.mp hr with hr | hr
          · exact Or.inl hr
          · rw [List.mem_singleton.mp hr]
            exact Or.inr hveg
  exact main (get_dashboard_data db lid a w v failAt) rfl

/-- C8 witness: the fetched observations under the concrete oracle, in the
fault-raising environments, are inside the documented ranges. -/
theorem c8_witness :
    (get_air_quality_data exAirEnvRaise cOracle 0).InRange ∧
    (get_water_security_data exWaterEnvRaise cOracle 0).InRange ∧
    (get_vegetation_data exVegEnvRaise cOracle 0).InRange :=
  (c8_range_invariant exAirEnvRaise exWaterEnvRaise exVegEnvRaise cOracle 0
    cOracle_valid).1

/-- C9: the history read operation performs no writes, returns at most
`limit` rows per domain, each slice sorted most-recent-first (descending
timestamp); on a location with 10 stored rows and limit 7 it returns exactly
the 7 most recent rows in descending timestamp order. -/
theorem c9_history_reader :
    (∀ (db : DB) (lid N : ℕ), (get_historical_data db lid N).1 = db) ∧
    (∀ (db : DB) (lid N : ℕ),
        (get_historical_data db lid N).2.air_quality.length ≤ N ∧
        (get_historical_data db lid N).2.water_data.length ≤ N ∧
        (get_historical_data db lid N).2.vegetation.length ≤ N) ∧
    (∀ (db : DB) (lid N : ℕ),
        List.Sorted (byTsDesc AirRow.timestamp)
          (get_historical_data db lid N).2.air_quality ∧
        List.Sorted (byTsDesc WaterRow.timestamp)
          (get_historical_data db lid N).2.water_data ∧
        List.Sorted (byTsDesc VegRow.timestamp)
          (get_historical_data db lid N).2.vegetation) ∧
    ((get_historical_data histDB 1 7).2.air_quality =
        [mkAirRow 9, mkAirRow 8, mkAirRow 7, mkAirRow 6, mkAirRow 5,
         mkAirRow 4, mkAirRow 3] ∧
     (get_historical_data histDB 1 7).2.air_quality.length = 7) := by
  have hlen : ∀ {α : Type} (ts locId : α → ℕ) (rows : List α) (lid N : ℕ),
      (sql_history ts locId rows lid N).length ≤ N := by
    intro α ts locId rows lid N
    unfold sql_history
    rw [List.length_take]
    exact min_le_left _ _
  have hsorted : ∀ {α : Type} (ts locId : α → ℕ) (rows : List α) (lid N : ℕ),
      List.Sorted (byTsDesc ts) (sql_history ts locId rows lid N) := by
    intro α ts locId rows lid N
    unfold sql_history
    exact List.Pairwise.sublist (List.take_sublist _ _)
      (List.sorted_insertionSort (byTsDesc ts) _)
  refine ⟨fun db lid N => rfl,
    fun db lid N =>
      ⟨hlen AirRow.timestamp AirRow.location_id db.air_quality lid N,
       hlen WaterRow.timestamp WaterRow.location_id db.water_data lid N,
       hlen VegRow.timestamp VegRow.location_id db.vegetation lid N⟩,
    fun db lid N =>
      ⟨hsorted AirRow.timestamp AirRow.location_id db.air_quality lid N,
       hsorted WaterRow.timestamp WaterRow.location_id db.water_data lid N,
       hsorted VegRow.timestamp VegRow.location_id db.vegetation lid N⟩,
    by decide, by decide⟩

end UrbanWell
